import Mathlib

/-!
Verification development for `src/verify_misc_costs.py`, a Playwright
end-to-end UI verification script.  The script registers ten network
route stubs (Python regular expressions paired with fixed JSON
responses), navigates a headless browser to a product page, waits for a
tab indicator, clicks the tab, asserts visibility of two elements and
takes screenshots; a top-level handler prints any `Exception` and a
`finally` block closes the browser.

The embedding has three layers:

* a matcher for the fragment of Python regular expressions that the
  script uses (`.*`, literals, `$`), with `re.search` semantics and `.`
  not matching a newline (no `re.DOTALL` is passed in the source);
* the ten route stubs with their literal JSON bodies, and the route
  lookup Playwright performs (handlers are consulted most recently
  registered first);
* the control flow of `test_misc_costs` and of the `__main__` block as a
  function from a `World` (the outcome of each browser interaction) to a
  result and a trace of effects.  Browser interactions may fail for
  reasons beyond the script (timeouts, crashed pages, Ctrl-C), so each
  interaction's outcome is an arbitrary `Option PyExc`.
-/

/-! ## Strings as character lists -/

/-- Strings, viewed as lists of characters, for the matcher below. -/
abbrev Str := List Char

/-- `startsWithL s p`: `p` is a leading segment of `s`. -/
def startsWithL : Str → Str → Bool
  | _, [] => true
  | [], _ :: _ => false
  | c :: s, p :: ps => c == p && startsWithL s ps

/-- `endsWithL s p`: `p` is a trailing segment of `s`. -/
def endsWithL (s p : Str) : Bool :=
  startsWithL s.reverse p.reverse

/-- `anySuf k s`: some suffix of `s` (including `s` itself) satisfies `k`. -/
def anySuf (k : Str → Bool) : Str → Bool
  | [] => k []
  | c :: s => k (c :: s) || anySuf k s

/-- `containsL p s`: `p` occurs contiguously somewhere inside `s`. -/
def containsL (p s : Str) : Bool :=
  anySuf (fun t => startsWithL t p) s

/-- `containsNN p s`: `p` occurs inside `s`, and every character strictly
before that occurrence is not a newline (the run consumed by a `.*`). -/
def containsNN (p : Str) : Str → Bool
  | [] => startsWithL [] p
  | c :: s => startsWithL (c :: s) p || (c != '\n' && containsNN p s)

/-- `containsThenL p1 p2 s`: `p1` occurs inside `s`, and after it `p2`
occurs, with no newline strictly between the two occurrences.  This is
the language of the Python pattern `.*P1.*P2` under `re.search`. -/
def containsThenL (p1 p2 : Str) (s : Str) : Bool :=
  anySuf (fun t => startsWithL t p1 && containsNN p2 (List.drop p1.length t)) s

/-! ## The regular-expression fragment used by the script

Every pattern passed to `re.compile` in the source is built from `.*`,
character literals and a final `$`.  `rxm r s k` matches `r` against a
leading portion of `s` and passes the remainder to the continuation `k`;
`rxSearch` tries every start position, which is what `re.search` (used
by Playwright's URL matcher for compiled patterns) does.  `.` does not
match `'\n'` since the source compiles its patterns without `re.DOTALL`. -/

/-- Regular expressions of the shape used in `verify_misc_costs.py`. -/
inductive Rx where
  | lit : Str → Rx
  | dotStar : Rx
  | eol : Rx
  | seq : Rx → Rx → Rx
deriving DecidableEq

/-- Continuation of `.*`: consume any (possibly empty) run of
non-newline characters, then try `k` on what is left. -/
def dotCont (k : Str → Bool) : Str → Bool
  | [] => k []
  | c :: s => k (c :: s) || (c != '\n' && dotCont k s)

/-- Matcher in continuation style. `rxm r s k = true` iff `r` matches a
leading portion of `s` whose remainder satisfies `k`. -/
def rxm : Rx → Str → (Str → Bool) → Bool
  | .lit p, s, k => startsWithL s p && k (List.drop p.length s)
  | .dotStar, s, k => dotCont k s
  | .eol, s, k => s.isEmpty && k s
  | .seq a b, s, k => rxm a s (fun t => rxm b t k)

/-- `re.search` semantics: the pattern may match starting anywhere. -/
def rxSearch (r : Rx) (s : Str) : Bool :=
  anySuf (fun t => rxm r t (fun _ => true)) s

/-- The pattern `.*LIT$` (suffix-anchored), as in `r".*/api/products/123$"`. -/
def sfxPat (p : Str) : Rx :=
  .seq .dotStar (.seq (.lit p) .eol)

/-- The pattern `.*LIT` (unanchored), as in `r".*/api/notifications"`. -/
def subPat (p : Str) : Rx :=
  .seq .dotStar (.lit p)

/-- The pattern `.*LIT1.*LIT2`, as in `r".*/api/inventory/products/.*/bom"`. -/
def subPat2 (p1 p2 : Str) : Rx :=
  .seq .dotStar (.seq (.lit p1) (.seq .dotStar (.lit p2)))

/-! ## JSON fixture bodies

The stub bodies in the source are hand-written JSON literals.  Every one
of them is an object whose values are scalars or arrays of flat objects,
or such an array itself, so the model distinguishes exactly these
levels.  A numeric literal written with `d` digits after the decimal
point is recorded as `jnum n d`, denoting `n / 10 ^ d` (so `2.50` is
`jnum 250 2` and `5` is `jnum 5 0`). -/

/-- Scalar JSON values occurring in the fixture bodies. -/
inductive JLeaf where
  | lnum (n : Int) (d : Nat)
  | lstr (s : String)
  | lbool (b : Bool)
deriving DecidableEq

/-- JSON values occurring as fields of a fixture object. -/
inductive JVal where
  | jnum (n : Int) (d : Nat)
  | jstr (s : String)
  | jbool (b : Bool)
  | jarrO (xs : List (List (String × JLeaf)))
deriving DecidableEq

/-- A whole fixture body: a JSON object or a JSON array of flat objects. -/
inductive JBody where
  | obj (fs : List (String × JVal))
  | arr (xs : List (List (String × JLeaf)))
deriving DecidableEq

/-! ## The ten route stubs (source lines 11-90)

`page.route(re.compile(PAT), lambda route: route.fulfill(status=200,
content_type="application/json", body=BODY))`, in registration order. -/

/-- One registered route stub: pattern, HTTP status, content type, body. -/
structure RouteStub where
  rx : Rx
  status : Nat
  contentType : String
  body : JBody
deriving DecidableEq

/-- Body of the `/api/products/123` stub (source lines 14-26). -/
def productBody : JBody :=
  .obj [(("id"), .jstr ("uuid-123")),
        (("wooId"), .jnum 123 0),
        (("name"), .jstr ("Test Product")),
        (("sku"), .jstr ("SKU-123")),
        (("price"), .jstr ("100.00")),
        (("salePrice"), .jstr ("")),
        (("stockStatus"), .jstr ("instock")),
        (("cogs"), .jstr ("50.00")),
        (("miscCosts"), .jarrO [[(("amount"), .lnum 5 0), (("note"), .lstr ("Handling"))],
                                [(("amount"), .lnum 250 2), (("note"), .lstr ("Label"))]]),
        (("type"), .jstr ("simple")),
        (("images"), .jarrO [])]

/-- `r".*/api/products/123$"` (line 11). -/
def productRoute : RouteStub :=
  { rx := sfxPat ("/api/products/123").data, status := 200,
    contentType := ("application/json"), body := productBody }

/-- `r".*/api/inventory/suppliers"` (line 30), body `[]`. -/
def suppliersRoute : RouteStub :=
  { rx := subPat ("/api/inventory/suppliers").data, status := 200,
    contentType := ("application/json"), body := .arr [] }

/-- `r".*/api/auth/me"` (line 37). -/
def authMeRoute : RouteStub :=
  { rx := subPat ("/api/auth/me").data, status := 200,
    contentType := ("application/json"),
    body := .obj [(("id"), .jstr ("user1")),
                  (("email"), .jstr ("test@example.com")),
                  (("fullName"), .jstr ("Test User"))] }

/-- `r".*/api/accounts$"` (line 44). -/
def accountsRoute : RouteStub :=
  { rx := sfxPat ("/api/accounts").data, status := 200,
    contentType := ("application/json"),
    body := .arr [[(("id"), .lstr ("acc1")), (("name"), .lstr ("Test Account"))]] }

/-- `r".*/api/products/123/sales-history"` (line 51). -/
def salesHistoryRoute : RouteStub :=
  { rx := subPat ("/api/products/123/sales-history").data, status := 200,
    contentType := ("application/json"),
    body := .obj [(("sales"), .jarrO []),
                  (("total"), .jnum 0 0),
                  (("page"), .jnum 1 0),
                  (("limit"), .jnum 15 0),
                  (("totalPages"), .jnum 1 0)] }

/-- `r".*/api/inventory/products/.*/bom"` (line 58). -/
def bomRoute : RouteStub :=
  { rx := subPat2 ("/api/inventory/products/").data ("/bom").data, status := 200,
    contentType := ("application/json"),
    body := .obj [(("items"), .jarrO [])] }

/-- `r".*/api/audits/PRODUCT/123"` (line 65), body `[]`. -/
def auditsRoute : RouteStub :=
  { rx := subPat ("/api/audits/PRODUCT/123").data, status := 200,
    contentType := ("application/json"), body := .arr [] }

/-- `r".*/api/sync/status"` (line 72). -/
def syncStatusRoute : RouteStub :=
  { rx := subPat ("/api/sync/status").data, status := 200,
    contentType := ("application/json"),
    body := .obj [(("active"), .jbool false)] }

/-- `r".*/api/notifications"` (line 79), body `[]`. -/
def notificationsRoute : RouteStub :=
  { rx := subPat ("/api/notifications").data, status := 200,
    contentType := ("application/json"), body := .arr [] }

/-- `r".*/api/chat/unread-count"` (line 86). -/
def chatUnreadRoute : RouteStub :=
  { rx := subPat ("/api/chat/unread-count").data, status := 200,
    contentType := ("application/json"),
    body := .obj [(("count"), .jnum 0 0)] }

/-- The ten stubs in the order `page.route` registers them. -/
def routes : List RouteStub :=
  [productRoute, suppliersRoute, authMeRoute, accountsRoute,
   salesHistoryRoute, bomRoute, auditsRoute, syncStatusRoute,
   notificationsRoute, chatUnreadRoute]

/-- The stub that intercepts a request to `url`, if any.  Playwright
consults route handlers most recently registered first, hence the
`reverse`. -/
def routeFor (url : String) : Option RouteStub :=
  routes.reverse.find? (fun r => rxSearch r.rx url.data)

/-- The (status, body) with which a request to `url` is fulfilled, if it
is intercepted at all. -/
def respond (url : String) : Option (Nat × JBody) :=
  (routeFor url).map (fun r => (r.status, r.body))

/-! ## Characterizing the three pattern shapes

`re.search` of `.*LIT$` accepts exactly the strings ending in `LIT`;
`re.search` of `.*LIT` accepts exactly the strings containing `LIT`;
`re.search` of `.*LIT1.*LIT2` accepts exactly the strings containing
`LIT1` and, later and with no newline in between, `LIT2`. -/

theorem startsWithL_iff (s p : Str) :
    startsWithL s p = true ↔ ∃ r, s = p ++ r := by
  induction p generalizing s with
  | nil =>
    simp [startsWithL]
  | cons x ps ih =>
    cases s with
    | nil => simp [startsWithL]
    | cons c s =>
      simp only [startsWithL, Bool.and_eq_true, beq_iff_eq, ih, List.cons_append,
        List.cons.injEq]
      constructor
      · rintro ⟨rfl, r, rfl⟩
        exact ⟨r, rfl, rfl⟩
      · rintro ⟨r, rfl, rfl⟩
        exact ⟨rfl, r, rfl⟩

theorem endsWithL_iff (s p : Str) :
    endsWithL s p = true ↔ ∃ a, s = a ++ p := by
  rw [endsWithL, startsWithL_iff]
  constructor
  · rintro ⟨r, h⟩
    refine ⟨r.reverse, ?_⟩
    have h2 := congrArg List.reverse h
    simpa using h2
  · rintro ⟨a, rfl⟩
    exact ⟨a.reverse, by simp⟩

theorem anySuf_iff (k : Str → Bool) (s : Str) :
    anySuf k s = true ↔ ∃ a t, s = a ++ t ∧ k t = true := by
  induction s with
  | nil =>
    simp only [anySuf]
    constructor
    · intro h
      exact ⟨[], [], rfl, h⟩
    · rintro ⟨a, t, h, hk⟩
      rcases List.append_eq_nil.mp h.symm with ⟨rfl, rfl⟩
      exact hk
  | cons c s ih =>
    simp only [anySuf, Bool.or_eq_true, ih]
    constructor
    · rintro (h | ⟨a, t, rfl, hk⟩)
      · exact ⟨[], c :: s, rfl, h⟩
      · exact ⟨c :: a, t, rfl, hk⟩
    · rintro ⟨a, t, h, hk⟩
      cases a with
      | nil =>
        exact Or.inl (by simpa using h ▸ hk)
      | cons c2 a =>
        rcases List.cons_eq_cons.mp h with ⟨rfl, rfl⟩
        exact Or.inr ⟨a, t, rfl, hk⟩

theorem dotCont_imp_anySuf (k : Str → Bool) :
    ∀ s, dotCont k s = true → anySuf k s = true := by
  intro s
  induction s with
  | nil => simp [dotCont, anySuf]
  | cons c s ih =>
    simp only [dotCont, anySuf, Bool.or_eq_true, Bool.and_eq_true]
    rintro (h | ⟨-, h⟩)
    · exact Or.inl h
    · exact Or.inr (ih h)

theorem anySuf_dotCont (k : Str → Bool) (s : Str) :
    anySuf (dotCont k) s = true ↔ anySuf k s = true := by
  induction s with
  | nil => simp [anySuf, dotCont]
  | cons c s ih =>
    simp only [anySuf, Bool.or_eq_true, ih, dotCont, Bool.and_eq_true]
    constructor
    · rintro ((h | ⟨-, h⟩) | h)
      · exact Or.inl h
      · exact Or.inr (dotCont_imp_anySuf k s h)
      · exact Or.inr h
    · rintro (h | h)
      · exact Or.inl (Or.inl h)
      · exact Or.inr h

/-- `.*LIT$` under `re.search` accepts exactly the strings that end in
`LIT`. -/
theorem rxSearch_sfxPat (p s : Str) :
    rxSearch (sfxPat p) s = true ↔ endsWithL s p = true := by
  have hfun : (fun t => rxm (sfxPat p) t (fun _ => true))
      = (fun t => dotCont (fun u => startsWithL u p
          && ((List.drop p.length u).isEmpty && true)) t) := by
    funext t
    simp [sfxPat, rxm]
  rw [rxSearch, hfun, anySuf_dotCont, anySuf_iff, endsWithL_iff]
  constructor
  · rintro ⟨a, t, rfl, hk⟩
    simp only [Bool.and_true, Bool.and_eq_true, startsWithL_iff] at hk
    rcases hk with ⟨⟨r, rfl⟩, hemp⟩
    rw [List.drop_left] at hemp
    rcases List.isEmpty_iff.mp hemp with rfl
    exact ⟨a, by simp⟩
  · rintro ⟨a, rfl⟩
    refine ⟨a, p, rfl, ?_⟩
    simp [startsWithL_iff, List.drop_left]

/-- `.*LIT` under `re.search` accepts exactly the strings that contain
`LIT`. -/
theorem rxSearch_subPat (p s : Str) :
    rxSearch (subPat p) s = true ↔ containsL p s = true := by
  have hfun : (fun t => rxm (subPat p) t (fun _ => true))
      = (fun t => dotCont (fun u => startsWithL u p) t) := by
    funext t
    simp [subPat, rxm]
  rw [rxSearch, hfun, anySuf_dotCont, containsL]

theorem dotCont_startsWithL_eq_containsNN (p : Str) :
    ∀ s, dotCont (fun u => startsWithL u p) s = containsNN p s := by
  intro s
  induction s with
  | nil => simp [dotCont, containsNN]
  | cons c s ih =>
    simp only [dotCont, containsNN, ih]

/-- `.*LIT1.*LIT2` under `re.search` accepts exactly the strings that
contain `LIT1` followed, with no newline in between, by `LIT2`. -/
theorem rxSearch_subPat2 (p1 p2 s : Str) :
    rxSearch (subPat2 p1 p2) s = true ↔ containsThenL p1 p2 s = true := by
  have hfun : (fun t => rxm (subPat2 p1 p2) t (fun _ => true))
      = (fun t => dotCont (fun u => startsWithL u p1
          && containsNN p2 (List.drop p1.length u)) t) := by
    funext t
    simp only [subPat2, rxm]
    congr 1
    funext u
    simp only [Bool.and_true]
    rw [dotCont_startsWithL_eq_containsNN]
  rw [rxSearch, hfun, anySuf_dotCont, containsThenL]

/-! ## Exceptions, the world and the effect trace -/

/-- Kinds of Python exceptions relevant to the script: Playwright's
`TimeoutError`, a failed `expect` assertion, any other Playwright or
runtime error (failed navigation, crashed page, ...), and a
`BaseException` that is not an `Exception` (e.g. `KeyboardInterrupt`). -/
inductive PyExc where
  | timeoutError
  | assertionError
  | pwError
  | keyboardInterrupt
deriving DecidableEq

/-- Whether the exception is an instance of Python's `Exception` class,
so that `except Exception as e` catches it.  `KeyboardInterrupt` derives
from `BaseException` only. -/
def PyExc.isException : PyExc → Bool
  | .keyboardInterrupt => false
  | _ => true

/-- Stands for Python's `str(e)` inside the `f"Error: ..."` message. -/
def excStr : PyExc → String
  | .timeoutError => ("TimeoutError")
  | .assertionError => ("AssertionError")
  | .pwError => ("Error")
  | .keyboardInterrupt => ("KeyboardInterrupt")

/-- Outcome of each browser interaction of one run: `none` means the
call returns normally, `some e` means it raises `e`.  The outcomes are
left unconstrained because every such call can fail for reasons beyond
the script's control (a timeout, a crashed page, Ctrl-C).  In
particular, `waitOutcome = some .timeoutError` is precisely a run in
which the "Pricing & Values" indicator does not appear within the
15-second timeout, and `expectHandlingOutcome = some .assertionError` is
precisely a run in which the input with value "Handling" is not visible. -/
structure World where
  gotoRootOutcome : Option PyExc
  evalOutcome : Option PyExc
  gotoProductOutcome : Option PyExc
  waitOutcome : Option PyExc
  clickOutcome : Option PyExc
  expectMiscOutcome : Option PyExc
  expectHandlingOutcome : Option PyExc
deriving DecidableEq

/-- The run in which every browser interaction succeeds. -/
def happyWorld : World :=
  { gotoRootOutcome := none, evalOutcome := none, gotoProductOutcome := none,
    waitOutcome := none, clickOutcome := none, expectMiscOutcome := none,
    expectHandlingOutcome := none }

/-- Observable actions the script performs, in order. -/
inductive Effect where
  | print (msg : String)
  | register (r : RouteStub)
  | navigate (url : String)
  | evalJs (script : String)
  | waitSelector (sel : String) (timeoutMs : Nat)
  | click (text : String)
  | expectVisibleText (text : String) (timeoutMs : Option Nat)
  | expectVisibleSel (sel : String) (timeoutMs : Option Nat)
  | screenshot (path : String)
  | launchBrowser
  | newPage
  | closeBrowser
deriving DecidableEq

/-- First navigation target (source line 94). -/
def rootUrl : String := ("http://localhost:5173/")

/-- Second navigation target (source line 98). -/
def productUrl : String := ("http://localhost:5173/inventory/product/123")

/-- Screenshot path of the tab-load failure branch (source line 106). -/
def timeoutShotPath : String := ("/home/jules/verification/timeout.png")

/-- Screenshot path of the success path (source line 120). -/
def verificationShotPath : String := ("/home/jules/verification/verification.png")

/-- The script passed to `page.evaluate` (source line 95). -/
def tokenScript : String := ("localStorage.setItem(\x27token\x27, \x27mock_token\x27)")

/-- A run: the result (normal return or uncaught exception) and the
trace of effects. -/
abbrev Run := Except PyExc Unit × List Effect

/-- Sequencing: emit the effects of one call; if its outcome is an
exception the run stops with that exception, otherwise it continues. -/
def stepThen (out : Option PyExc) (effs : List Effect) (rest : Run) : Run :=
  match out with
  | some e => (Except.error e, effs)
  | none => (rest.1, effs ++ rest.2)

/-- Source lines 100-107: the `print`, then
`try: page.wait_for_selector("text=Pricing & Values", timeout=15000)`
with a bare `except:` clause that prints, screenshots to
`timeout.png` and re-`raise`s.  Because the `except:` is bare, EVERY
exception raised by the wait — not only a timeout — takes the
screenshot branch and is then re-raised unchanged. -/
def waitStep (out : Option PyExc) (rest : Run) : Run :=
  match out with
  | some e =>
    (Except.error e,
     [.print ("Waiting for page load..."),
      .waitSelector ("text=Pricing & Values") 15000,
      .print ("Timeout waiting for Pricing tab. Taking screenshot."),
      .screenshot timeoutShotPath])
  | none =>
    (rest.1,
     [.print ("Waiting for page load..."),
      .waitSelector ("text=Pricing & Values") 15000] ++ rest.2)

/-- Source lines 109-121: click the tab, the two visibility assertions
(`expect(...).to_be_visible(timeout=5000)` on the "Miscellaneous Costs"
text, then `expect(page.locator("input[value=...]")).to_be_visible()`
with no explicit timeout), and the final screenshot. -/
def afterWait (w : World) : Run :=
  stepThen w.clickOutcome
    [.print ("Clicking Pricing tab..."), .click ("Pricing & Values")] <|
  stepThen w.expectMiscOutcome
    [.print ("Checking for Miscellaneous Costs..."),
     .expectVisibleText ("Miscellaneous Costs") (some 5000)] <|
  stepThen w.expectHandlingOutcome
    [.expectVisibleSel ("input[value=\x27Handling\x27]") none] <|
  (Except.ok (),
   [.print ("Taking verification screenshot..."),
    .screenshot verificationShotPath,
    .print ("Done.")])

/-- `test_misc_costs(page)` (source lines 5-121): register the ten route
stubs, navigate to the root page, seed the auth token into local
storage, navigate to the product page, then wait / click / assert /
screenshot. -/
def test_misc_costs (w : World) : Run :=
  stepThen w.gotoRootOutcome
    (Effect.print ("Setting up mocks...") :: routes.map Effect.register
      ++ [Effect.print ("Navigating to page..."), Effect.navigate rootUrl]) <|
  stepThen w.evalOutcome [.evalJs tokenScript] <|
  stepThen w.gotoProductOutcome [.navigate productUrl] <|
  waitStep w.waitOutcome (afterWait w)

/-- The `__main__` block (source lines 123-132): launch the browser,
open a page, then `try: test_misc_costs(page)` with
`except Exception as e: print(f"Error: ...")` and
`finally: browser.close()`.  An exception that is not an `Exception`
(e.g. `KeyboardInterrupt`) is not caught: the `finally` clause still
closes the browser, and the exception propagates out of the script. -/
def mainScript (w : World) : Run :=
  match test_misc_costs w with
  | (Except.ok _, effs) =>
    (Except.ok (),
     Effect.launchBrowser :: Effect.newPage :: effs ++ [Effect.closeBrowser])
  | (Except.error e, effs) =>
    if e.isException then
      (Except.ok (),
       Effect.launchBrowser :: Effect.newPage :: effs
         ++ [Effect.print (("Error: ") ++ excStr e), Effect.closeBrowser])
    else
      (Except.error e,
       Effect.launchBrowser :: Effect.newPage :: effs ++ [Effect.closeBrowser])

/-! ## Trace observations -/

/-- Recognizes the `closeBrowser` effect. -/
def isClose : Effect → Bool
  | .closeBrowser => true
  | _ => false

/-- Recognizes a route-registration effect. -/
def isRegEffect : Effect → Bool
  | .register _ => true
  | _ => false

/-- The target of a navigation effect, if it is one. -/
def navTarget : Effect → Option String
  | .navigate u => some u
  | _ => none

/-- Number of times the browser is closed in a trace. -/
def closeCount (l : List Effect) : Nat :=
  l.countP isClose

/-- Number of route registrations in a trace. -/
def regCount (l : List Effect) : Nat :=
  l.countP isRegEffect

/-- The navigation targets of a trace, in order. -/
def navsOf (l : List Effect) : List String :=
  l.filterMap navTarget

/-! ## Trace lemmas -/

/-- Every effect the verification flow can ever emit (the union over all
branches), in program order. -/
def allTestEffects : List Effect :=
  [Effect.print ("Setting up mocks...")] ++ routes.map Effect.register
    ++ [Effect.print ("Navigating to page..."), Effect.navigate rootUrl,
        Effect.evalJs tokenScript, Effect.navigate productUrl,
        Effect.print ("Waiting for page load..."),
        Effect.waitSelector ("text=Pricing & Values") 15000,
        Effect.print ("Timeout waiting for Pricing tab. Taking screenshot."),
        Effect.screenshot timeoutShotPath,
        Effect.print ("Clicking Pricing tab..."), Effect.click ("Pricing & Values"),
        Effect.print ("Checking for Miscellaneous Costs..."),
        Effect.expectVisibleText ("Miscellaneous Costs") (some 5000),
        Effect.expectVisibleSel ("input[value=\x27Handling\x27]") none,
        Effect.print ("Taking verification screenshot..."),
        Effect.screenshot verificationShotPath, Effect.print ("Done.")]

/-- Whatever the world does, the flow only ever emits effects from
`allTestEffects`. -/
theorem test_trace_subset (w : World) : (test_misc_costs w).2 ⊆ allTestEffects := by
  rcases w with ⟨g1, g2, g3, g4, g5, g6, g7⟩
  cases g1 <;> cases g2 <;> cases g3 <;> cases g4 <;> cases g5 <;> cases g6 <;> cases g7 <;>
    intro x hx <;> revert hx <;>
    simp only [test_misc_costs, stepThen, waitStep, afterWait] <;>
    intro hx <;>
    exact (by decide : _ ⊆ allTestEffects) hx

/-- The verification flow itself never closes the browser. -/
theorem closeCount_test (w : World) : closeCount (test_misc_costs w).2 = 0 := by
  rcases w with ⟨g1, g2, g3, g4, g5, g6, g7⟩
  cases g1 <;> cases g2 <;> cases g3 <;> cases g4 <;> cases g5 <;> cases g6 <;> cases g7 <;> rfl

/-- If the flow returns normally, the entry point returns normally and
appends only the `finally` close to the trace. -/
theorem mainScript_eq_ok (w : World) (h : (test_misc_costs w).1 = Except.ok ()) :
    mainScript w = (Except.ok (),
      Effect.launchBrowser :: Effect.newPage ::
        (test_misc_costs w).2 ++ [Effect.closeBrowser]) := by
  rcases hts : test_misc_costs w with ⟨r, effs⟩
  rw [hts] at h
  have h1 : r = Except.ok () := h
  subst h1
  simp [mainScript, hts]

/-- If the flow raises an `Exception`, the entry point catches it,
prints it, closes the browser and returns normally. -/
theorem mainScript_eq_caught (w : World) (e : PyExc)
    (h : (test_misc_costs w).1 = Except.error e) (he : e.isException = true) :
    mainScript w = (Except.ok (),
      Effect.launchBrowser :: Effect.newPage :: (test_misc_costs w).2
        ++ [Effect.print (("Error: ") ++ excStr e), Effect.closeBrowser]) := by
  rcases hts : test_misc_costs w with ⟨r, effs⟩
  rw [hts] at h
  have h1 : r = Except.error e := h
  subst h1
  simp [mainScript, hts, he]

/-- If the flow raises a `BaseException` that is not an `Exception`, the
entry point closes the browser and lets it propagate, printing nothing. -/
theorem mainScript_eq_base (w : World) (e : PyExc)
    (h : (test_misc_costs w).1 = Except.error e) (he : e.isException = false) :
    mainScript w = (Except.error e,
      Effect.launchBrowser :: Effect.newPage :: (test_misc_costs w).2
        ++ [Effect.closeBrowser]) := by
  rcases hts : test_misc_costs w with ⟨r, effs⟩
  rw [hts] at h
  have h1 : r = Except.error e := h
  subst h1
  simp [mainScript, hts, he]

/-- On every path of the entry point the browser is closed exactly once. -/
theorem closeCount_main (w : World) : closeCount (mainScript w).2 = 1 := by
  have h0 := closeCount_test w
  rcases hts : test_misc_costs w with ⟨r, effs⟩
  rw [hts] at h0
  cases r with
  | ok u =>
    rcases u
    rw [mainScript_eq_ok w (by rw [hts])]
    rw [hts]
    simp only [closeCount] at h0 ⊢
    simp [List.countP_cons, List.countP_append, isClose, h0]
  | error e =>
    cases he : e.isException with
    | true =>
      rw [mainScript_eq_caught w e (by rw [hts]) he, hts]
      simp only [closeCount] at h0 ⊢
      simp [List.countP_cons, List.countP_append, isClose, h0]
    | false =>
      rw [mainScript_eq_base w e (by rw [hts]) he, hts]
      simp only [closeCount] at h0 ⊢
      simp [List.countP_cons, List.countP_append, isClose, h0]

/-- When the wait for the tab indicator does not raise, the failure
screenshot is never taken. -/
theorem no_timeout_shot_when_wait_ok (w : World) (h : w.waitOutcome = none) :
    Effect.screenshot timeoutShotPath ∉ (test_misc_costs w).2 := by
  rcases w with ⟨g1, g2, g3, g4, g5, g6, g7⟩
  cases h
  cases g1 <;> cases g2 <;> cases g3 <;> cases g5 <;> cases g6 <;> cases g7 <;>
    simp only [test_misc_costs, stepThen, waitStep, afterWait] <;>
    decide

/-! ## Named worlds used as concrete runs -/

/-- The run in which the tab indicator never appears within 15 seconds. -/
def timeoutWorld : World :=
  { happyWorld with waitOutcome := some PyExc.timeoutError }

/-- A run in which the wait fails with a non-timeout Playwright error. -/
def crashAtWaitWorld : World :=
  { happyWorld with waitOutcome := some PyExc.pwError }

/-- The run in which the "Handling" input visibility assertion fails. -/
def assertFailWorld : World :=
  { happyWorld with expectHandlingOutcome := some PyExc.assertionError }

/-- A run interrupted by Ctrl-C (`KeyboardInterrupt`) at the tab click. -/
def interruptWorld : World :=
  { happyWorld with clickOutcome := some PyExc.keyboardInterrupt }

/-! ## The claims -/

/-- C1: in every run that reaches the tab-load wait and in which the
"Pricing & Values" indicator does not appear within the 15-second
timeout (so the wait raises Playwright's `TimeoutError`), the script
writes a screenshot to `/home/jules/verification/timeout.png` and
re-raises the timeout error out of the verification flow. -/
theorem c1_tab_timeout_screenshot_reraise (w : World)
    (h1 : w.gotoRootOutcome = none) (h2 : w.evalOutcome = none)
    (h3 : w.gotoProductOutcome = none)
    (h4 : w.waitOutcome = some PyExc.timeoutError) :
    (test_misc_costs w).1 = Except.error PyExc.timeoutError ∧
      Effect.screenshot timeoutShotPath ∈ (test_misc_costs w).2 := by
  rcases w with ⟨g1, g2, g3, g4, g5, g6, g7⟩
  cases h1; cases h2; cases h3; cases h4
  refine ⟨rfl, ?_⟩
  simp only [test_misc_costs, stepThen, waitStep]
  decide

/-- Witness for C1: the concrete timed-out run. -/
theorem c1_witness :
    (test_misc_costs timeoutWorld).1 = Except.error PyExc.timeoutError ∧
      Effect.screenshot timeoutShotPath ∈ (test_misc_costs timeoutWorld).2 :=
  c1_tab_timeout_screenshot_reraise timeoutWorld rfl rfl rfl rfl

/-- C2: the script registers exactly ten route stubs; every intercepted
request is fulfilled with HTTP status 200 and the body of one of the ten
stubs; and the bodies have the shapes of the external-interface table
(`/api/products/123` a product object with fields id, wooId, name, sku,
price, salePrice, stockStatus, cogs, miscCosts as an array of
amount/note objects, type, images; `/api/inventory/suppliers` an empty
array; `/api/sync/status` active false; `/api/chat/unread-count` count 0). -/
theorem c2_ten_stubs_fulfill_200 :
    (∀ url s b, respond url = some (s, b) →
      s = 200 ∧ ∃ r, r ∈ routes ∧ b = r.body) ∧
    routes.length = 10 ∧
    (∀ r, r ∈ routes → r.status = 200 ∧ r.contentType = ("application/json")) ∧
    (∃ fs mcs, productRoute.body = JBody.obj fs ∧
      fs.map Prod.fst = [("id"), ("wooId"), ("name"), ("sku"), ("price"),
        ("salePrice"), ("stockStatus"), ("cogs"), ("miscCosts"), ("type"), ("images")] ∧
      fs.lookup ("miscCosts") = some (JVal.jarrO mcs) ∧
      ∀ o, o ∈ mcs → o.map Prod.fst = [("amount"), ("note")]) ∧
    suppliersRoute.body = JBody.arr [] ∧
    syncStatusRoute.body = JBody.obj [(("active"), JVal.jbool false)] ∧
    chatUnreadRoute.body = JBody.obj [(("count"), JVal.jnum 0 0)] := by
  refine ⟨?_, by decide, by decide, ?_, rfl, rfl, rfl⟩
  · intro url s b h
    rcases hfind : routes.reverse.find? (fun r => rxSearch r.rx url.data) with - | r
    · rw [respond, routeFor, hfind] at h
      simp at h
    · rw [respond, routeFor, hfind] at h
      simp only [Option.map_some', Option.some.injEq, Prod.mk.injEq] at h
      have hmem : r ∈ routes := List.mem_reverse.mp (List.mem_of_find?_eq_some hfind)
      have h200 : ∀ x, x ∈ routes → x.status = 200 := by decide
      constructor
      · rw [← h.1]
        exact h200 r hmem
      · exact ⟨r, hmem, h.2.symm⟩
  · exact ⟨_, _, rfl, rfl, rfl, by decide⟩

/-- Witness for C2: a concrete request to the chat-unread stub. -/
theorem c2_witness :
    200 = 200 ∧ ∃ r, r ∈ routes ∧
      JBody.obj [(("count"), JVal.jnum 0 0)] = r.body :=
  c2_ten_stubs_fulfill_200.1 (("http://localhost:5173/api/chat/unread-count")) 200
    (JBody.obj [(("count"), JVal.jnum 0 0)]) (by decide)

/-- C3: in every run that reaches the "Handling"-input visibility
assertion and in which that assertion fails, the raised exception
reaches the top-level handler, which prints it; the process does not
crash (the entry point returns normally) and the browser is still
closed. -/
theorem c3_assertion_failure_swallowed (w : World)
    (h1 : w.gotoRootOutcome = none) (h2 : w.evalOutcome = none)
    (h3 : w.gotoProductOutcome = none) (h4 : w.waitOutcome = none)
    (h5 : w.clickOutcome = none) (h6 : w.expectMiscOutcome = none)
    (h7 : w.expectHandlingOutcome = some PyExc.assertionError) :
    (mainScript w).1 = Except.ok () ∧
      Effect.print (("Error: ") ++ excStr PyExc.assertionError) ∈ (mainScript w).2 ∧
      Effect.closeBrowser ∈ (mainScript w).2 := by
  rcases w with ⟨g1, g2, g3, g4, g5, g6, g7⟩
  cases h1; cases h2; cases h3; cases h4; cases h5; cases h6; cases h7
  exact ⟨rfl, by decide, by decide⟩

/-- Witness for C3: the concrete failed-assertion run. -/
theorem c3_witness :
    (mainScript assertFailWorld).1 = Except.ok () ∧
      Effect.print (("Error: ") ++ excStr PyExc.assertionError)
        ∈ (mainScript assertFailWorld).2 ∧
      Effect.closeBrowser ∈ (mainScript assertFailWorld).2 :=
  c3_assertion_failure_swallowed assertFailWorld rfl rfl rfl rfl rfl rfl rfl

/-- C4: on every execution path of the entry point — success, tab-load
timeout, assertion failure, or any other exception — the browser is
closed exactly once. -/
theorem c4_browser_closed_exactly_once (w : World) :
    closeCount (mainScript w).2 = 1 :=
  closeCount_main w

/-- C5 counterexample: the `except:` at the tab-load wait is bare, so a
non-timeout exception raised by the wait (here a Playwright page error)
also takes the diagnostic-screenshot-and-re-raise path — the path is not
taken "only for a tab-load timeout" as the claim states. -/
theorem c5_counterexample :
    (test_misc_costs crashAtWaitWorld).1 = Except.error PyExc.pwError ∧
      PyExc.pwError ≠ PyExc.timeoutError ∧
      Effect.screenshot timeoutShotPath ∈ (test_misc_costs crashAtWaitWorld).2 :=
  ⟨rfl, by decide, by decide⟩

/-- C5 amended: every exception raised by the tab-load wait (a timeout
being the expected kind) takes the diagnostic-screenshot-and-re-raise
path; an exception raised anywhere else never produces the diagnostic
screenshot and reaches only the top-level handler, which — when it is an
`Exception` — prints it and swallows it, with the browser closed. -/
theorem c5_amended_error_paths (w : World) (e : PyExc) :
    (w.gotoRootOutcome = none → w.evalOutcome = none → w.gotoProductOutcome = none →
      w.waitOutcome = some e →
      (test_misc_costs w).1 = Except.error e ∧
        Effect.screenshot timeoutShotPath ∈ (test_misc_costs w).2) ∧
    (w.waitOutcome = none → (test_misc_costs w).1 = Except.error e →
      Effect.screenshot timeoutShotPath ∉ (test_misc_costs w).2 ∧
      (e.isException = true →
        (mainScript w).1 = Except.ok () ∧
          Effect.print (("Error: ") ++ excStr e) ∈ (mainScript w).2 ∧
          Effect.closeBrowser ∈ (mainScript w).2)) := by
  constructor
  · intro h1 h2 h3 h4
    rcases w with ⟨g1, g2, g3, g4, g5, g6, g7⟩
    cases h1; cases h2; cases h3; cases h4
    refine ⟨rfl, ?_⟩
    simp only [test_misc_costs, stepThen, waitStep]
    decide
  · intro h4 hts
    refine ⟨no_timeout_shot_when_wait_ok w h4, ?_⟩
    intro he
    have hm := mainScript_eq_caught w e hts he
    rw [hm]
    refine ⟨rfl, ?_, ?_⟩ <;> simp

/-- Witness for C5: the timed-out run takes the screenshot path; the
failed-assertion run produces no diagnostic screenshot and is printed
and swallowed by the top-level handler. -/
theorem c5_witness :
    ((test_misc_costs timeoutWorld).1 = Except.error PyExc.timeoutError ∧
      Effect.screenshot timeoutShotPath ∈ (test_misc_costs timeoutWorld).2) ∧
    (Effect.screenshot timeoutShotPath ∉ (test_misc_costs assertFailWorld).2 ∧
      (PyExc.assertionError.isException = true →
        (mainScript assertFailWorld).1 = Except.ok () ∧
          Effect.print (("Error: ") ++ excStr PyExc.assertionError)
            ∈ (mainScript assertFailWorld).2 ∧
          Effect.closeBrowser ∈ (mainScript assertFailWorld).2)) :=
  ⟨(c5_amended_error_paths timeoutWorld PyExc.timeoutError).1 rfl rfl rfl rfl,
   (c5_amended_error_paths assertFailWorld PyExc.assertionError).2 rfl rfl⟩

/-- A URL that merely contains `/api/notifications` in the middle. -/
def notifMidUrl : String := ("http://localhost:5173/api/notifications/anything")

/-- C6 counterexample: a URL that merely contains `/api/notifications`
in the middle of its path, without ending in it, is nevertheless matched
and intercepted by the notifications stub — the registered patterns do
not all match by suffix. -/
theorem c6_counterexample :
    rxSearch notificationsRoute.rx notifMidUrl.data = true ∧
      routeFor notifMidUrl = some notificationsRoute ∧
      endsWithL notifMidUrl.data (("/api/notifications").data) = false := by
  decide

/-- C6 amended: the two `$`-anchored patterns (`/api/products/123` and
`/api/accounts`) match exactly the URLs ending in their path; the bom
pattern matches exactly the URLs containing `/api/inventory/products/`
followed (newline-free) by `/bom`; the remaining seven patterns match
exactly the URLs containing their path anywhere; in particular a URL
ending in `/api/products/123/sales-history` is handled by the
sales-history stub and not by the `/api/products/123` stub. -/
theorem c6_amended_match_semantics :
    (∀ s : Str,
      (rxSearch productRoute.rx s = true ↔
        endsWithL s (("/api/products/123").data) = true) ∧
      (rxSearch accountsRoute.rx s = true ↔
        endsWithL s (("/api/accounts").data) = true) ∧
      (rxSearch suppliersRoute.rx s = true ↔
        containsL (("/api/inventory/suppliers").data) s = true) ∧
      (rxSearch authMeRoute.rx s = true ↔
        containsL (("/api/auth/me").data) s = true) ∧
      (rxSearch salesHistoryRoute.rx s = true ↔
        containsL (("/api/products/123/sales-history").data) s = true) ∧
      (rxSearch auditsRoute.rx s = true ↔
        containsL (("/api/audits/PRODUCT/123").data) s = true) ∧
      (rxSearch syncStatusRoute.rx s = true ↔
        containsL (("/api/sync/status").data) s = true) ∧
      (rxSearch notificationsRoute.rx s = true ↔
        containsL (("/api/notifications").data) s = true) ∧
      (rxSearch chatUnreadRoute.rx s = true ↔
        containsL (("/api/chat/unread-count").data) s = true) ∧
      (rxSearch bomRoute.rx s = true ↔
        containsThenL (("/api/inventory/products/").data) (("/bom").data) s = true)) ∧
    routeFor (("http://localhost:5173/api/products/123/sales-history"))
      = some salesHistoryRoute := by
  refine ⟨fun s => ⟨rxSearch_sfxPat _ s, rxSearch_sfxPat _ s, rxSearch_subPat _ s,
    rxSearch_subPat _ s, rxSearch_subPat _ s, rxSearch_subPat _ s, rxSearch_subPat _ s,
    rxSearch_subPat _ s, rxSearch_subPat _ s, rxSearch_subPat2 _ _ s⟩, by decide⟩

/-- C7: in every run in which all browser interactions succeed, the
verification flow returns normally, the entry point returns normally
(no exception propagates), and the screenshot
`/home/jules/verification/verification.png` is taken. -/
theorem c7_happy_run_ok_and_screenshot (w : World)
    (h1 : w.gotoRootOutcome = none) (h2 : w.evalOutcome = none)
    (h3 : w.gotoProductOutcome = none) (h4 : w.waitOutcome = none)
    (h5 : w.clickOutcome = none) (h6 : w.expectMiscOutcome = none)
    (h7 : w.expectHandlingOutcome = none) :
    (test_misc_costs w).1 = Except.ok () ∧
      (mainScript w).1 = Except.ok () ∧
      Effect.screenshot verificationShotPath ∈ (mainScript w).2 := by
  rcases w with ⟨g1, g2, g3, g4, g5, g6, g7⟩
  cases h1; cases h2; cases h3; cases h4; cases h5; cases h6; cases h7
  exact ⟨rfl, rfl, by decide⟩

/-- Witness for C7: the all-successful run. -/
theorem c7_witness :
    (test_misc_costs happyWorld).1 = Except.ok () ∧
      (mainScript happyWorld).1 = Except.ok () ∧
      Effect.screenshot verificationShotPath ∈ (mainScript happyWorld).2 :=
  c7_happy_run_ok_and_screenshot happyWorld rfl rfl rfl rfl rfl rfl rfl

/-- C8: the only wait-for-selector effect the flow can emit is the tab
indicator wait with a 15000 ms timeout, and the only text-visibility
assertion is the "Miscellaneous Costs" one with a 5000 ms timeout; both
are emitted on every run that reaches them. -/
theorem c8_fixed_timeouts :
    (∀ (w : World) (s : String) (t : Nat),
      Effect.waitSelector s t ∈ (test_misc_costs w).2 →
        s = ("text=Pricing & Values") ∧ t = 15000) ∧
    (∀ (w : World) (txt : String) (t : Option Nat),
      Effect.expectVisibleText txt t ∈ (test_misc_costs w).2 →
        txt = ("Miscellaneous Costs") ∧ t = some 5000) ∧
    (∀ w : World, w.gotoRootOutcome = none → w.evalOutcome = none →
      w.gotoProductOutcome = none →
      Effect.waitSelector ("text=Pricing & Values") 15000 ∈ (test_misc_costs w).2) ∧
    (∀ w : World, w.gotoRootOutcome = none → w.evalOutcome = none →
      w.gotoProductOutcome = none → w.waitOutcome = none → w.clickOutcome = none →
      Effect.expectVisibleText ("Miscellaneous Costs") (some 5000)
        ∈ (test_misc_costs w).2) := by
  refine ⟨?_, ?_, ?_, ?_⟩
  · intro w s t h
    have h2 := test_trace_subset w h
    simp [allTestEffects, routes] at h2
    exact h2
  · intro w txt t h
    have h2 := test_trace_subset w h
    simp [allTestEffects, routes] at h2
    exact h2
  · intro w h1 h2 h3
    rcases w with ⟨g1, g2, g3, g4, g5, g6, g7⟩
    cases h1; cases h2; cases h3
    cases g4 <;> cases g5 <;> cases g6 <;> cases g7 <;>
      simp only [test_misc_costs, stepThen, waitStep, afterWait] <;> decide
  · intro w h1 h2 h3 h4 h5
    rcases w with ⟨g1, g2, g3, g4, g5, g6, g7⟩
    cases h1; cases h2; cases h3; cases h4; cases h5
    cases g6 <;> cases g7 <;>
      simp only [test_misc_costs, stepThen, waitStep, afterWait] <;> decide

/-- Witness for C8: both effects occur in the all-successful run. -/
theorem c8_witness :
    Effect.waitSelector ("text=Pricing & Values") 15000
        ∈ (test_misc_costs happyWorld).2 ∧
      Effect.expectVisibleText ("Miscellaneous Costs") (some 5000)
        ∈ (test_misc_costs happyWorld).2 :=
  ⟨c8_fixed_timeouts.2.2.1 happyWorld rfl rfl rfl,
   c8_fixed_timeouts.2.2.2 happyWorld rfl rfl rfl rfl rfl⟩

/-- The first eleven effects of every run: the "Setting up mocks..."
print followed by the ten route registrations. -/
def mocksHead : List Effect :=
  Effect.print ("Setting up mocks...") :: routes.map Effect.register

/-- C9: the ten route stubs are pairwise distinct and registered exactly
once each; every registration precedes the first navigation (the first
eleven effects are the registrations, and no registration occurs later);
and the navigations are the root URL — right after which the
authentication token is written to local storage — followed, when
reached, by the product URL. -/
theorem c9_registered_once_before_navigation :
    routes.Nodup ∧
    (∀ w : World, regCount (test_misc_costs w).2 = 10) ∧
    (∀ w : World, ((test_misc_costs w).2.take 11 = mocksHead ∧
      regCount ((test_misc_costs w).2.drop 11) = 0)) ∧
    (∀ w : World, navsOf (test_misc_costs w).2 = [rootUrl] ∨
      navsOf (test_misc_costs w).2 = [rootUrl, productUrl]) ∧
    (∀ w : World, w.gotoRootOutcome = none →
      (test_misc_costs w).2.take 14 = mocksHead
        ++ [Effect.print ("Navigating to page..."), Effect.navigate rootUrl,
            Effect.evalJs tokenScript]) := by
  refine ⟨by decide, ?_, ?_, ?_, ?_⟩
  · intro w
    rcases w with ⟨g1, g2, g3, g4, g5, g6, g7⟩
    cases g1 <;> cases g2 <;> cases g3 <;> cases g4 <;> cases g5 <;> cases g6 <;>
      cases g7 <;> rfl
  · intro w
    rcases w with ⟨g1, g2, g3, g4, g5, g6, g7⟩
    cases g1 <;> cases g2 <;> cases g3 <;> cases g4 <;> cases g5 <;> cases g6 <;>
      cases g7 <;> exact ⟨rfl, rfl⟩
  · intro w
    rcases w with ⟨g1, g2, g3, g4, g5, g6, g7⟩
    cases g1 <;> cases g2 <;> cases g3 <;> cases g4 <;> cases g5 <;> cases g6 <;>
      cases g7 <;> first | exact Or.inl rfl | exact Or.inr rfl
  · intro w h1
    rcases w with ⟨g1, g2, g3, g4, g5, g6, g7⟩
    cases h1
    cases g2 <;> cases g3 <;> cases g4 <;> cases g5 <;> cases g6 <;> cases g7 <;> rfl

/-- Witness for C9: the token is written right after the first
navigation in the all-successful run. -/
theorem c9_witness :
    (test_misc_costs happyWorld).2.take 14 = mocksHead
      ++ [Effect.print ("Navigating to page..."), Effect.navigate rootUrl,
          Effect.evalJs tokenScript] :=
  c9_registered_once_before_navigation.2.2.2.2 happyWorld rfl

/-- C10: a `BaseException` that is not an `Exception` (such as
`KeyboardInterrupt`) raised in the verification flow is not caught or
printed by the top-level handler — it propagates out of the entry point,
whose trace is exactly the flow's trace plus the `finally` close — and
the browser is still closed exactly once. -/
theorem c10_base_exception_propagates (w : World) (e : PyExc)
    (h : (test_misc_costs w).1 = Except.error e) (he : e.isException = false) :
    mainScript w = (Except.error e,
      Effect.launchBrowser :: Effect.newPage :: (test_misc_costs w).2
        ++ [Effect.closeBrowser]) ∧
      closeCount (mainScript w).2 = 1 :=
  ⟨mainScript_eq_base w e h he, closeCount_main w⟩

/-- Witness for C10: Ctrl-C at the tab click. -/
theorem c10_witness :
    mainScript interruptWorld = (Except.error PyExc.keyboardInterrupt,
      Effect.launchBrowser :: Effect.newPage :: (test_misc_costs interruptWorld).2
        ++ [Effect.closeBrowser]) ∧
      closeCount (mainScript interruptWorld).2 = 1 :=
  c10_base_exception_propagates interruptWorld PyExc.keyboardInterrupt rfl rfl
